import Mathlib

/-
Verification of the call-scoring pipeline in `src/function_app.py`.

The file shallowly embeds the pipeline's pure content:
- a JSON value model with a parser (`json_loads`) and serializer (`json_dumps`)
  mirroring Python's `json.loads` / `json.dumps` (numbers are modelled as
  integers; no property considered here depends on float payloads),
- the Ingestion Coordinator (`blobberfunction`) as a fold over speech-session
  events, with `threading.Event` modelled as a Bool with an idempotent `set`,
- the Assessment Workers (`politeness_from_topic`, `empathy_from_topic`,
  `professionalism_from_topic`) and the Raw Transcript Persister
  (`topic_to_cosmos`), with the external scorer response passed in as a
  parameter and persistence modelled by the returned `Option` record,
- the Query Service (`get_all_transcripts`) over an explicit store that either
  yields the stored items or fails with an exception detail string.
-/

/-- JSON values as handled by `json.loads` / `json.dumps` in the source.
Numbers are modelled as integers. Object member lists keep source order. -/
inductive Json where
  | null : Json
  | bool (b : Bool) : Json
  | num (n : Int) : Json
  | str (s : String) : Json
  | arr (xs : List Json) : Json
  | obj (kvs : List (String × Json)) : Json

/-- JSON whitespace, as skipped by Python's JSON decoder. -/
def isJsonWs (c : Char) : Bool :=
  c = ' ' || c = '\t' || c = '\n' || c = '\r'

/-- Drop leading JSON whitespace. -/
def skipWs : List Char → List Char
  | [] => []
  | c :: cs => if isJsonWs c then skipWs cs else c :: cs

/-- Value of a hexadecimal digit character, if it is one. -/
def hexVal (c : Char) : Option Nat :=
  let n := c.toNat
  if 48 ≤ n ∧ n ≤ 57 then some (n - 48)
  else if 97 ≤ n ∧ n ≤ 102 then some (n - 87)
  else if 65 ≤ n ∧ n ≤ 70 then some (n - 55)
  else none

/-- Decoding of a short escape `\x` inside a JSON string literal. -/
def escChar (e : Char) : Option Char :=
  if e = '"' then some '"'
  else if e = '\\' then some '\\'
  else if e = '/' then some '/'
  else if e = 'b' then some '\x08'
  else if e = 'f' then some '\x0c'
  else if e = 'n' then some '\n'
  else if e = 'r' then some '\r'
  else if e = 't' then some '\t'
  else none

/-- Parse the remainder of a JSON string literal (the opening quote already
consumed), returning the decoded string and the rest of the input. Python's
strict decoder rejects raw control characters inside string literals. -/
def parseJString : List Char → Option (String × List Char)
  | [] => none
  | '"' :: cs => some ("", cs)
  | '\\' :: 'u' :: a :: b :: c :: d :: cs =>
    match hexVal a, hexVal b, hexVal c, hexVal d with
    | some ha, some hb, some hc, some hd =>
      match parseJString cs with
      | some (s, rest) =>
        some (String.mk (Char.ofNat (4096 * ha + 256 * hb + 16 * hc + hd) :: s.data), rest)
      | none => none
    | _, _, _, _ => none
  | '\\' :: e :: cs =>
    match escChar e with
    | some ec =>
      match parseJString cs with
      | some (s, rest) => some (String.mk (ec :: s.data), rest)
      | none => none
    | none => none
  | c :: cs =>
    if c.toNat < 32 then none
    else
      match parseJString cs with
      | some (s, rest) => some (String.mk (c :: s.data), rest)
      | none => none

/-- Numeric value of a list of decimal digit characters. -/
def digitsToNat (ds : List Char) : Nat :=
  ds.foldl (fun a c => a * 10 + (c.toNat - 48)) 0

/-- Parse a JSON integer (an optional minus sign followed by digits). -/
def parseNumber (cs : List Char) : Option (Json × List Char) :=
  match cs with
  | '-' :: rest =>
    let p := rest.span Char.isDigit
    if p.1 = [] then none else some (Json.num (-(digitsToNat p.1 : Int)), p.2)
  | _ =>
    let p := cs.span Char.isDigit
    if p.1 = [] then none else some (Json.num (digitsToNat p.1), p.2)

mutual

/-- Parse one JSON value, fuel-bounded for termination. -/
def parseValue : Nat → List Char → Option (Json × List Char)
  | 0, _ => none
  | fuel + 1, cs =>
    match skipWs cs with
    | 'n' :: 'u' :: 'l' :: 'l' :: rest => some (Json.null, rest)
    | 't' :: 'r' :: 'u' :: 'e' :: rest => some (Json.bool true, rest)
    | 'f' :: 'a' :: 'l' :: 's' :: 'e' :: rest => some (Json.bool false, rest)
    | '"' :: rest =>
      match parseJString rest with
      | some (s, rem) => some (Json.str s, rem)
      | none => none
    | '[' :: rest =>
      match skipWs rest with
      | ']' :: rem => some (Json.arr [], rem)
      | cs2 =>
        match parseElems fuel cs2 with
        | some (xs, rem) => some (Json.arr xs, rem)
        | none => none
    | '\x7b' :: rest =>
      match skipWs rest with
      | '\x7d' :: rem => some (Json.obj [], rem)
      | cs2 =>
        match parseMems fuel cs2 with
        | some (kvs, rem) => some (Json.obj kvs, rem)
        | none => none
    | rest => parseNumber rest

/-- Parse the non-empty element list of a JSON array, up to and including the
closing bracket. -/
def parseElems : Nat → List Char → Option (List Json × List Char)
  | 0, _ => none
  | fuel + 1, cs =>
    match parseValue fuel cs with
    | none => none
    | some (v, rem) =>
      match skipWs rem with
      | ',' :: rest =>
        match parseElems fuel rest with
        | some (xs, rem2) => some (v :: xs, rem2)
        | none => none
      | ']' :: rest => some ([v], rest)
      | _ => none

/-- Parse the non-empty member list of a JSON object, up to and including the
closing brace. -/
def parseMems : Nat → List Char → Option (List (String × Json) × List Char)
  | 0, _ => none
  | fuel + 1, cs =>
    match skipWs cs with
    | '"' :: rest =>
      match parseJString rest with
      | none => none
      | some (k, rem) =>
        match skipWs rem with
        | ':' :: rest2 =>
          match parseValue fuel rest2 with
          | none => none
          | some (v, rem2) =>
            match skipWs rem2 with
            | ',' :: rest3 =>
              match parseMems fuel rest3 with
              | some (kvs, rem3) => some ((k, v) :: kvs, rem3)
              | none => none
            | '\x7d' :: rest3 => some ([(k, v)], rest3)
            | _ => none
        | _ => none
    | _ => none

end

/-- Model of Python's `json.loads`: parse one value and require that only
whitespace follows; any failure is an exception, modelled as `none`. -/
def json_loads (s : String) : Option Json :=
  match parseValue (2 * s.data.length + 4) s.data with
  | some (v, rem) => if skipWs rem = [] then some v else none
  | none => none

/-- One hexadecimal digit character. -/
def hexDigitChar (n : Nat) : String :=
  if n < 10 then String.singleton (Char.ofNat (48 + n))
  else String.singleton (Char.ofNat (87 + n))

/-- Four-hex-digit rendering, as in a JSON `\uXXXX` escape. -/
def hex4 (n : Nat) : String :=
  hexDigitChar (n / 4096 % 16) ++ hexDigitChar (n / 256 % 16) ++
    hexDigitChar (n / 16 % 16) ++ hexDigitChar (n % 16)

/-- Escape one character the way `json.dumps` (default `ensure_ascii=True`)
renders it inside a string literal. -/
def dumpChar (c : Char) : String :=
  if c = '"' then "\\\""
  else if c = '\\' then "\\\\"
  else if c = '\n' then "\\n"
  else if c = '\t' then "\\t"
  else if c = '\r' then "\\r"
  else if c = '\x08' then "\\b"
  else if c = '\x0c' then "\\f"
  else if c.toNat < 32 ∨ 126 < c.toNat then "\\u" ++ hex4 c.toNat
  else String.singleton c

/-- Render a JSON string literal as `json.dumps` does. -/
def dumpString (s : String) : String :=
  "\"" ++ String.join (s.data.map dumpChar) ++ "\""

mutual

/-- Model of Python's `json.dumps` with its default separators. -/
def json_dumps : Json → String
  | Json.null => "null"
  | Json.bool true => "true"
  | Json.bool false => "false"
  | Json.num n => toString n
  | Json.str s => dumpString s
  | Json.arr xs => "[" ++ dumpsElems xs ++ "]"
  | Json.obj kvs => "\x7b" ++ dumpsMems kvs ++ "\x7d"

/-- Comma-separated rendering of array elements. -/
def dumpsElems : List Json → String
  | [] => ""
  | [x] => json_dumps x
  | x :: y :: xs => json_dumps x ++ ", " ++ dumpsElems (y :: xs)

/-- Comma-separated rendering of object members. -/
def dumpsMems : List (String × Json) → String
  | [] => ""
  | [(k, v)] => dumpString k ++ ": " ++ json_dumps v
  | (k, v) :: m :: kvs => dumpString k ++ ": " ++ json_dumps v ++ ", " ++ dumpsMems (m :: kvs)

end

/-- Python truthiness on decoded JSON values (`if not call_id` in the source). -/
def truthy : Json → Bool
  | Json.null => false
  | Json.bool b => b
  | Json.num n => decide (n ≠ 0)
  | Json.str s => decide (s ≠ "")
  | Json.arr xs => !xs.isEmpty
  | Json.obj kvs => !kvs.isEmpty

/-- Truthiness of a `dict.get` result; a missing key yields Python `None`,
which is falsy. -/
def optTruthy : Option Json → Bool
  | none => false
  | some v => truthy v

/-- Lookup in an object member list with Python-dict semantics: a later
duplicate key overrides an earlier one. -/
def getKey : List (String × Json) → String → Option Json
  | [], _ => none
  | (k, v) :: rest, key =>
    match getKey rest key with
    | some v2 => some v2
    | none => if k = key then some v else none

/-- Lookup of a key in a JSON value; only objects have members. -/
def getVal (j : Json) (key : String) : Option Json :=
  match j with
  | Json.obj kvs => getKey kvs key
  | _ => none

/-- Whether a JSON value is an object containing the given key. -/
def hasKey (j : Json) (key : String) : Bool :=
  (getVal j key).isSome

/-- Keys of a JSON object, in order. -/
def jsonKeys (j : Json) : List String :=
  match j with
  | Json.obj kvs => kvs.map Prod.fst
  | _ => []

/-- Python string whitespace, as stripped by `str.strip()`. -/
def isPyWs (c : Char) : Bool :=
  c = ' ' || c = '\t' || c = '\n' || c = '\r' || c = '\x0b' || c = '\x0c'

/-- Model of Python's `str.strip()` with no argument. -/
def pyStrip (s : String) : String :=
  String.mk (((s.data.dropWhile isPyWs).reverse.dropWhile isPyWs).reverse)

/-- Modelled external collaborator: `uuid.uuid4()` as an injective supply of
fresh identifiers indexed by the draw number. -/
def uuid (n : Nat) : String :=
  String.mk (List.replicate (n + 1) 'u')

/-- Cancellation reasons carried by an Azure Speech `canceled` event. -/
inductive CancellationReason where
  | error : CancellationReason
  | endOfStream : CancellationReason
  | cancelledByUser : CancellationReason

/-- Events pushed by the speech-session collaborator to the coordinator's
three registered sinks. An utterance carries an optional speaker id (Python
`speaker_id` may be `None` or empty) and the recognized text. -/
inductive SpeechEvent where
  | transcribed (speaker_id : Option String) (text : String) : SpeechEvent
  | canceled (reason : CancellationReason) (error_details : String) : SpeechEvent
  | sessionStopped : SpeechEvent

/-- Model of `threading.Event.set()`: unconditionally moves the flag to set. -/
def Event.set (_ : Bool) : Bool := true

/-- Model of `threading.Event.wait()` returning: it unblocks exactly when the
flag is set. -/
def wait_unblocks (done : Bool) : Prop := done = true

/-- Speaker label computed in `handle_transcribed`:
`f"Speaker {speaker}" if speaker else "Unknown"` with Python truthiness
(`None` and the empty string are falsy). -/
def speakerLabel (speaker : Option String) : String :=
  match speaker with
  | some s => if s ≠ "" then "Speaker " ++ s else "Unknown"
  | none => "Unknown"

/-- Body of `handle_transcribed`: append one labeled line when the recognized
text is non-empty, otherwise leave the lines unchanged. -/
def handle_transcribed (lines : List String) (speaker_id : Option String) (text : String) :
    List String :=
  if text ≠ "" then lines ++ [speakerLabel speaker_id ++ ": " ++ text] else lines

/-- Mutable state of one `blobberfunction` run: the `transcript_lines` list
and the `done` event. -/
structure CoordinatorState where
  transcript_lines : List String
  done : Bool

/-- Dispatch of one delivered speech event to the registered sink: utterances
go to `handle_transcribed`, both terminal events call `done.set()`
(`handle_canceled` / `handle_session_stopped`). -/
def stepEvent (st : CoordinatorState) (e : SpeechEvent) : CoordinatorState :=
  match e with
  | SpeechEvent.transcribed sp tx =>
    { st with transcript_lines := handle_transcribed st.transcript_lines sp tx }
  | SpeechEvent.canceled _ _ => { st with done := Event.set st.done }
  | SpeechEvent.sessionStopped => { st with done := Event.set st.done }

/-- A whole session: every delivered event dispatched in order, starting from
an empty line list and an unset completion event. -/
def runSession (events : List SpeechEvent) : CoordinatorState :=
  events.foldl stepEvent { transcript_lines := [], done := false }

/-- JSON object built by `blobberfunction` before `json.dumps`:
`{"call_id": call_id, "transcript": transcript}`. -/
def transcript_json (call_id : String) (transcript : String) : Json :=
  Json.obj [("call_id", Json.str call_id), ("transcript", Json.str transcript)]

/-- Publishing tail of `blobberfunction`: after `done.wait()` unblocks (the
session produced a terminal event), join the accumulated lines with newlines,
draw one fresh correlation id, and send exactly one message to the topic.
`none` models the coordinator still blocked on `done.wait()`. -/
def blobberfunction (fresh : Nat) (events : List SpeechEvent) : Option (List Json) :=
  let st := runSession events
  if st.done then
    some [transcript_json (uuid fresh) (String.intercalate "\n" st.transcript_lines)]
  else
    none

/-- The topic name `blobberfunction` publishes to:
`os.getenv("AZURE_SERVICEBUS_TOPIC_NAME", "transcripttopic")`. -/
def blobber_topic_name (env_topic : Option String) : String :=
  env_topic.getD "transcripttopic"

/-- Topic of the politeness worker's subscription (trigger binding). -/
def politeness_subscription_topic : String := "transcriptstopic"

/-- Topic of the empathy worker's subscription (trigger binding). -/
def empathy_subscription_topic : String := "transcriptstopic"

/-- Topic of the professionalism worker's subscription (trigger binding). -/
def professionalism_subscription_topic : String := "transcriptstopic"

/-- Topic of the raw-persister subscription (trigger binding). -/
def topic_to_cosmos_subscription_topic : String := "transcriptstopic"

/-- The two terminal sinks that may fire on session termination. -/
inductive TerminalSink where
  | canceledSink : TerminalSink
  | sessionStoppedSink : TerminalSink
deriving DecidableEq

/-- Firing one terminal sink: both `handle_canceled` and
`handle_session_stopped` end in `done.set()`. -/
def fireSink (done : Bool) (_ : TerminalSink) : Bool := Event.set done

/-- Deliver a sequence of terminal-sink firings (one interleaving of the
concurrent deliveries) to the completion event. -/
def runSinks (done : Bool) (fires : List TerminalSink) : Bool :=
  fires.foldl fireSink done

/-- Number of unset-to-set transitions the completion event undergoes along a
sequence of sink firings. -/
def setTransitionCount : Bool → List TerminalSink → Nat
  | _, [] => 0
  | d, s :: rest =>
    (if d = false ∧ fireSink d s = true then 1 else 0) + setTransitionCount (fireSink d s) rest

/-- Shared validation prefix of all four consumers: decode the body as JSON
(`json.loads` failure is caught and the handler returns), read `call_id` and
`transcript` via `dict.get` (an `AttributeError` on a non-dict is caught by
the same `except`), and return unless both are truthy. -/
def parse_message (body : String) : Option (Json × Json) :=
  match json_loads body with
  | none => none
  | some (Json.obj kvs) =>
    let call_id := getKey kvs "call_id"
    let transcript := getKey kvs "transcript"
    if optTruthy call_id && optTruthy transcript then
      some (call_id.getD Json.null, transcript.getD Json.null)
    else
      none
  | some _ => none

/-- The enumerated validation-failure class of §4.3/§7: a body that is not
JSON, decodes to a non-object, or lacks a truthy `call_id` or `transcript`. -/
def message_invalid (body : String) : Bool :=
  match json_loads body with
  | none => true
  | some (Json.obj kvs) =>
    !(optTruthy (getKey kvs "call_id")) || !(optTruthy (getKey kvs "transcript"))
  | some _ => true

/-- Item written to Cosmos DB by an assessment worker. -/
structure AssessmentItem where
  id : String
  call_id : Json
  assessment : Json
  type : String

/-- Item written to Cosmos DB by the raw transcript persister. -/
structure TranscriptItem where
  id : String
  call_id : Json
  transcript : Json

/-- Shared worker body parametrized by the dimension tag: validate the
message, strip the scorer response and parse it as JSON (`json.loads` failure
is caught and the handler returns, persisting nothing), then persist one item
under a fresh id. The scorer response text is the external collaborator's
reply, passed in as a parameter. -/
def assessment_worker (dimension : String) (fresh : Nat) (body : String)
    (ai_response : String) : Option AssessmentItem :=
  match parse_message body with
  | none => none
  | some (call_id, _transcript) =>
    match json_loads (pyStrip ai_response) with
    | none => none
    | some assessment_data =>
      some { id := uuid fresh, call_id := call_id, assessment := assessment_data,
             type := dimension }

/-- The politeness worker (`politeness_from_topic` in the source). -/
def politeness_from_topic (fresh : Nat) (body : String) (ai_response : String) :
    Option AssessmentItem :=
  assessment_worker "politeness" fresh body ai_response

/-- The empathy worker (`empathy_from_topic` in the source). -/
def empathy_from_topic (fresh : Nat) (body : String) (ai_response : String) :
    Option AssessmentItem :=
  assessment_worker "empathy" fresh body ai_response

/-- The professionalism worker (`professionalism_from_topic` in the source). -/
def professionalism_from_topic (fresh : Nat) (body : String) (ai_response : String) :
    Option AssessmentItem :=
  assessment_worker "professionalism" fresh body ai_response

/-- The raw transcript persister (`topic_to_cosmos` in the source): on a valid
message, persist `{id, call_id, transcript}` under a fresh id. -/
def topic_to_cosmos (fresh : Nat) (body : String) : Option TranscriptItem :=
  match parse_message body with
  | none => none
  | some (call_id, transcript) =>
    some { id := uuid fresh, call_id := call_id, transcript := transcript }

/-- HTTP response as built in `get_all_transcripts`. -/
structure HttpResponse where
  status_code : Nat
  body : String
  mimetype : Option String

/-- Projection applied by the query `SELECT c.id, c.call_id, c.transcript`. -/
def transcript_projection (r : TranscriptItem) : Json :=
  Json.obj [("id", Json.str r.id), ("call_id", r.call_id), ("transcript", r.transcript)]

/-- The query endpoint (`get_all_transcripts` in the source). The store either
yields the stored transcript items or raises, carrying an exception detail
string; the whole read is inside `try`, and the `except` arm returns a fixed
generic 500 body. -/
def get_all_transcripts (store : Except String (List TranscriptItem)) : HttpResponse :=
  match store with
  | Except.ok items =>
    { status_code := 200,
      body := json_dumps (Json.arr (items.map transcript_projection)),
      mimetype := some "application/json" }
  | Except.error _ =>
    { status_code := 500, body := "Error fetching transcripts.", mimetype := none }

/-- Utterance payloads of a session's events, in delivery order. -/
def utterancesOf : List SpeechEvent → List (Option String × String)
  | [] => []
  | SpeechEvent.transcribed sp tx :: rest => (sp, tx) :: utterancesOf rest
  | SpeechEvent.canceled _ _ :: rest => utterancesOf rest
  | SpeechEvent.sessionStopped :: rest => utterancesOf rest

/-- Whether an event fires one of the two terminal sinks. -/
def isTerminal : SpeechEvent → Bool
  | SpeechEvent.transcribed _ _ => false
  | SpeechEvent.canceled _ _ => true
  | SpeechEvent.sessionStopped => true

lemma runSinks_true : ∀ fires : List TerminalSink, runSinks true fires = true := by
  intro fires
  induction fires with
  | nil => rfl
  | cons s rest ih => simpa [runSinks, fireSink, Event.set] using ih

lemma setTransitionCount_true : ∀ fires : List TerminalSink, setTransitionCount true fires = 0 := by
  intro fires
  induction fires with
  | nil => rfl
  | cons s rest ih => simp [setTransitionCount, fireSink, Event.set, ih]

lemma uuid_injective : ∀ m n : Nat, uuid m = uuid n → m = n := by
  intro m n h
  have h2 : List.replicate (m + 1) 'u' = List.replicate (n + 1) 'u' := congrArg String.data h
  have h3 := congrArg List.length h2
  have h4 : m + 1 = n + 1 := by simpa using h3
  omega

lemma foldl_stepEvent_lines : ∀ (events : List SpeechEvent) (ls : List String) (d : Bool),
    (events.foldl stepEvent { transcript_lines := ls, done := d }).transcript_lines =
      ls ++ ((utterancesOf events).filter fun u => decide (u.2 ≠ "")).map
        (fun u => speakerLabel u.1 ++ ": " ++ u.2) := by
  intro events
  induction events with
  | nil => intro ls d; simp [utterancesOf]
  | cons e rest ih =>
    intro ls d
    cases e with
    | transcribed sp tx =>
      by_cases htx : tx = ""
      · subst htx
        simp [stepEvent, handle_transcribed, utterancesOf, ih]
      · simp [stepEvent, handle_transcribed, htx, utterancesOf, ih]
    | canceled r det => simp [stepEvent, utterancesOf, ih]
    | sessionStopped => simp [stepEvent, utterancesOf, ih]

lemma runSession_lines (events : List SpeechEvent) :
    (runSession events).transcript_lines =
      ((utterancesOf events).filter fun u => decide (u.2 ≠ "")).map
        (fun u => speakerLabel u.1 ++ ": " ++ u.2) := by
  simpa using foldl_stepEvent_lines events [] false

lemma runSession_append_terminal (events : List SpeechEvent) (e : SpeechEvent)
    (he : isTerminal e = true) :
    (runSession (events ++ [e])).transcript_lines = (runSession events).transcript_lines ∧
    (runSession (events ++ [e])).done = true := by
  cases e with
  | transcribed sp tx => simp [isTerminal] at he
  | canceled r det =>
    constructor <;> simp [runSession, List.foldl_append, stepEvent, Event.set]
  | sessionStopped =>
    constructor <;> simp [runSession, List.foldl_append, stepEvent, Event.set]

/-- Claim C1: the pipeline is supposed to use one single topic, but under the
default configuration (`AZURE_SERVICEBUS_TOPIC_NAME` unset) `blobberfunction`
publishes to `"transcripttopic"` while all four consumer subscriptions listen
on `"transcriptstopic"` — the producer default and the consumer topic differ,
so the published message never reaches the subscriptions. -/
theorem C1_default_topic_mismatch :
    blobber_topic_name none = "transcripttopic" ∧
    politeness_subscription_topic = "transcriptstopic" ∧
    empathy_subscription_topic = "transcriptstopic" ∧
    professionalism_subscription_topic = "transcriptstopic" ∧
    topic_to_cosmos_subscription_topic = "transcriptstopic" ∧
    blobber_topic_name none ≠ politeness_subscription_topic := by
  refine ⟨rfl, rfl, rfl, rfl, rfl, ?_⟩
  decide

/-- Claim C2: the completion signal is single-shot and race-safe. For every
non-empty interleaving of firings of the canceled sink and the
session-stopped sink, the event ends set (so `done.wait()` unblocks), the
unset-to-set transition happens exactly once, further firings neither change
the flag nor add a transition, and both sinks indeed call `Event.set` on the
coordinator's `done` flag. -/
theorem C2_single_shot_signal (fires : List TerminalSink) (h : fires ≠ []) :
    wait_unblocks (runSinks false fires) ∧
    setTransitionCount false fires = 1 ∧
    (∀ more : List TerminalSink,
      runSinks (runSinks false fires) more = runSinks false fires ∧
      setTransitionCount (runSinks false fires) more = 0) ∧
    (∀ (st : CoordinatorState) (r : CancellationReason) (det : String),
      (stepEvent st (SpeechEvent.canceled r det)).done = Event.set st.done) ∧
    (∀ st : CoordinatorState, (stepEvent st SpeechEvent.sessionStopped).done = Event.set st.done) := by
  obtain ⟨s, rest, rfl⟩ : ∃ s rest, fires = s :: rest := by
    cases fires with
    | nil => exact absurd rfl h
    | cons s rest => exact ⟨s, rest, rfl⟩
  have hrun : runSinks false (s :: rest) = true := by
    simpa [runSinks, fireSink, Event.set] using runSinks_true rest
  refine ⟨hrun, ?_, ?_, fun st r det => rfl, fun st => rfl⟩
  · simp [setTransitionCount, fireSink, Event.set, setTransitionCount_true rest]
  · intro more
    rw [hrun]
    exact ⟨runSinks_true more, setTransitionCount_true more⟩

theorem C2_witness :
    wait_unblocks (runSinks false [TerminalSink.canceledSink, TerminalSink.sessionStoppedSink]) ∧
    setTransitionCount false [TerminalSink.canceledSink, TerminalSink.sessionStoppedSink] = 1 ∧
    runSinks (runSinks false [TerminalSink.canceledSink, TerminalSink.sessionStoppedSink])
        [TerminalSink.sessionStoppedSink] =
      runSinks false [TerminalSink.canceledSink, TerminalSink.sessionStoppedSink] ∧
    setTransitionCount
        (runSinks false [TerminalSink.canceledSink, TerminalSink.sessionStoppedSink])
        [TerminalSink.sessionStoppedSink] = 0 := by
  have h := C2_single_shot_signal
    [TerminalSink.canceledSink, TerminalSink.sessionStoppedSink] (by decide)
  exact ⟨h.1, h.2.1, (h.2.2.1 [TerminalSink.sessionStoppedSink]).1,
    (h.2.2.1 [TerminalSink.sessionStoppedSink]).2⟩

/-- Claim C5: for every completed session (the completion event was set), the
coordinator publishes exactly one message; that message is a JSON object with
both the `call_id` key (the fresh correlation id) and the `transcript` key
(the accumulated lines joined by newline), and when no utterance was produced
the transcript value is the empty string. -/
theorem C5_publishes_one_message (fresh : Nat) (events : List SpeechEvent)
    (hdone : (runSession events).done = true) :
    ∃ m : Json,
      blobberfunction fresh events = some [m] ∧
      hasKey m "call_id" = true ∧
      hasKey m "transcript" = true ∧
      getVal m "call_id" = some (Json.str (uuid fresh)) ∧
      getVal m "transcript" =
        some (Json.str (String.intercalate "\n" (runSession events).transcript_lines)) ∧
      (utterancesOf events = [] → getVal m "transcript" = some (Json.str "")) := by
  refine ⟨transcript_json (uuid fresh)
    (String.intercalate "\n" (runSession events).transcript_lines), ?_, rfl, rfl, rfl, rfl, ?_⟩
  · simp [blobberfunction, hdone]
  · intro hu
    have hl : (runSession events).transcript_lines = [] := by
      rw [runSession_lines, hu]; rfl
    rw [hl]
    rfl

theorem C5_witness :
    (runSession [SpeechEvent.sessionStopped]).done = true ∧
    ∃ m : Json,
      blobberfunction 0 [SpeechEvent.sessionStopped] = some [m] ∧
      hasKey m "call_id" = true ∧
      hasKey m "transcript" = true ∧
      getVal m "call_id" = some (Json.str (uuid 0)) ∧
      getVal m "transcript" =
        some (Json.str (String.intercalate "\n"
          (runSession [SpeechEvent.sessionStopped]).transcript_lines)) ∧
      (utterancesOf [SpeechEvent.sessionStopped] = [] →
        getVal m "transcript" = some (Json.str "")) :=
  ⟨rfl, C5_publishes_one_message 0 [SpeechEvent.sessionStopped] rfl⟩

/-- Claim C6: the coordinator appends one line per utterance event with
non-empty text, in delivery order, formatted `"<label>: <text>"` with label
`"Speaker {id}"` when a speaker id was assigned and `"Unknown"` otherwise;
empty-text events append nothing, and the label is a function of the speaker
id alone, so a speaker's label is identical across all of that speaker's
lines within a session. -/
theorem C6_utterance_lines (events : List SpeechEvent) :
    (runSession events).transcript_lines =
      ((utterancesOf events).filter fun u => decide (u.2 ≠ "")).map
        (fun u => speakerLabel u.1 ++ ": " ++ u.2) ∧
    ∀ sp1 sp2 : Option String, sp1 = sp2 → speakerLabel sp1 = speakerLabel sp2 :=
  ⟨runSession_lines events, fun _ _ h => h ▸ rfl⟩

theorem C6_witness :
    (runSession [SpeechEvent.transcribed (some "Guest-1") "hello",
      SpeechEvent.transcribed none "mhm",
      SpeechEvent.transcribed (some "Guest-1") "",
      SpeechEvent.transcribed (some "Guest-2") "bye",
      SpeechEvent.sessionStopped]).transcript_lines =
      ["Speaker Guest-1: hello", "Unknown: mhm", "Speaker Guest-2: bye"] ∧
    speakerLabel (some "Guest-1") = speakerLabel (some "Guest-1") := by
  have h := C6_utterance_lines [SpeechEvent.transcribed (some "Guest-1") "hello",
    SpeechEvent.transcribed none "mhm",
    SpeechEvent.transcribed (some "Guest-1") "",
    SpeechEvent.transcribed (some "Guest-2") "bye",
    SpeechEvent.sessionStopped]
  exact ⟨h.1.trans (by rfl), h.2 (some "Guest-1") (some "Guest-1") rfl⟩

/-- Claim C9: an error-reason cancellation does not abort transcript
emission: a session ending in a `canceled` event with the error reason
completes and publishes exactly what the same session ending in a clean
`session_stopped` event publishes — one message carrying the lines
accumulated before cancellation. -/
theorem C9_error_cancellation_still_publishes (fresh : Nat) (events : List SpeechEvent)
    (details : String) :
    blobberfunction fresh (events ++ [SpeechEvent.canceled CancellationReason.error details]) =
      blobberfunction fresh (events ++ [SpeechEvent.sessionStopped]) ∧
    (runSession (events ++ [SpeechEvent.canceled CancellationReason.error details])).done = true ∧
    blobberfunction fresh (events ++ [SpeechEvent.canceled CancellationReason.error details]) =
      some [transcript_json (uuid fresh)
        (String.intercalate "\n" (runSession events).transcript_lines)] := by
  obtain ⟨hcl, hcd⟩ := runSession_append_terminal events
    (SpeechEvent.canceled CancellationReason.error details) rfl
  obtain ⟨hsl, hsd⟩ := runSession_append_terminal events SpeechEvent.sessionStopped rfl
  refine ⟨?_, hcd, ?_⟩
  · simp [blobberfunction, hcd, hsd, hcl, hsl]
  · simp [blobberfunction, hcd, hcl]

theorem C9_witness :
    blobberfunction 0 [SpeechEvent.transcribed (some "Guest-1") "partial line",
        SpeechEvent.canceled CancellationReason.error "network error"] =
      blobberfunction 0 [SpeechEvent.transcribed (some "Guest-1") "partial line",
        SpeechEvent.sessionStopped] ∧
    (runSession [SpeechEvent.transcribed (some "Guest-1") "partial line",
        SpeechEvent.canceled CancellationReason.error "network error"]).done = true ∧
    blobberfunction 0 [SpeechEvent.transcribed (some "Guest-1") "partial line",
        SpeechEvent.canceled CancellationReason.error "network error"] =
      some [transcript_json (uuid 0)
        (String.intercalate "\n"
          (runSession [SpeechEvent.transcribed (some "Guest-1") "partial line"]).transcript_lines)] :=
  C9_error_cancellation_still_publishes 0
    [SpeechEvent.transcribed (some "Guest-1") "partial line"] "network error"

lemma parse_message_none_of_invalid (body : String) (h : message_invalid body = true) :
    parse_message body = none := by
  unfold message_invalid at h
  unfold parse_message
  cases hj : json_loads body with
  | none => rfl
  | some j =>
    rw [hj] at h
    cases j with
    | null => rfl
    | bool b => rfl
    | num n => rfl
    | str s => rfl
    | arr xs => rfl
    | obj kvs =>
      have hc : optTruthy (getKey kvs "call_id") = false ∨
          optTruthy (getKey kvs "transcript") = false := by
        simpa using h
      rcases hc with h1 | h1 <;> simp [h1]

lemma assessment_worker_success (dimension : String) (fresh : Nat) (body resp : String)
    (cid tr j : Json)
    (hmsg : parse_message body = some (cid, tr))
    (hresp : json_loads (pyStrip resp) = some j) :
    assessment_worker dimension fresh body resp =
      some { id := uuid fresh, call_id := cid, assessment := j, type := dimension } := by
  simp [assessment_worker, hmsg, hresp]

/-- Claim C3 counterexample: the scorer response `"{}"` is a JSON object that
does not match the mandated shape (all three keys are missing), yet the
politeness worker persists an `AssessmentItem` for it instead of dropping the
message, so the claim as stated is false. -/
theorem C3_counterexample :
    (politeness_from_topic 0
      "\x7b\"call_id\": \"call-1\", \"transcript\": \"Speaker 1: hello\"\x7d"
      "\x7b\x7d").isSome = true ∧
    politeness_from_topic 0
      "\x7b\"call_id\": \"call-1\", \"transcript\": \"Speaker 1: hello\"\x7d"
      "\x7b\x7d" =
      some { id := uuid 0, call_id := Json.str "call-1", assessment := Json.obj [],
             type := "politeness" } :=
  ⟨rfl, rfl⟩

/-- Claim C3 (amended): a worker persists nothing and drops the message
exactly when the stripped scorer response fails to parse as JSON at all
(extra prose, markdown fencing); a response that does parse as JSON — even a
JSON object with missing keys or a non-object JSON value — is persisted as
is, with no shape check. The handlers are total (every exception is caught
and the function returns), so the message is settled with no retry and no
fallback score. -/
theorem C3_amended_drop_on_json_parse_failure (fresh : Nat) (body resp : String)
    (h : json_loads (pyStrip resp) = none) :
    politeness_from_topic fresh body resp = none ∧
    empathy_from_topic fresh body resp = none ∧
    professionalism_from_topic fresh body resp = none := by
  refine ⟨?_, ?_, ?_⟩ <;>
  · show assessment_worker _ fresh body resp = none
    cases hpm : parse_message body with
    | none => simp [assessment_worker, hpm]
    | some val =>
      obtain ⟨cid, tr⟩ := val
      simp [assessment_worker, hpm, h]

theorem C3_witness :
    json_loads (pyStrip "The agent was polite. I would score this a 5.") = none ∧
    politeness_from_topic 0
      "\x7b\"call_id\": \"call-2\", \"transcript\": \"hi\"\x7d"
      "The agent was polite. I would score this a 5." = none := by
  have h := C3_amended_drop_on_json_parse_failure 0
    "\x7b\"call_id\": \"call-2\", \"transcript\": \"hi\"\x7d"
    "The agent was polite. I would score this a 5." rfl
  exact ⟨rfl, h.1⟩

/-- Claim C4 counterexample: a scorer response carrying `politeness_score: 7`
— an integer outside `[1,5]` — passes the worker's only check (`json.loads`)
and is persisted as an `AssessmentItem`, so the claimed range validation does
not exist. -/
theorem C4_counterexample :
    (politeness_from_topic 0
      "\x7b\"call_id\": \"call-3\", \"transcript\": \"hi there\"\x7d"
      "\x7b\"politeness_score\": 7, \"summary\": \"ok\", \"reasoning\": \"r\"\x7d").isSome =
      true ∧
    politeness_from_topic 0
      "\x7b\"call_id\": \"call-3\", \"transcript\": \"hi there\"\x7d"
      "\x7b\"politeness_score\": 7, \"summary\": \"ok\", \"reasoning\": \"r\"\x7d" =
      some { id := uuid 0, call_id := Json.str "call-3",
             assessment := Json.obj [("politeness_score", Json.num 7),
               ("summary", Json.str "ok"), ("reasoning", Json.str "r")],
             type := "politeness" } :=
  ⟨rfl, rfl⟩

/-- Claim C4 (amended): no score validation is performed. Any scorer response
that parses as JSON is persisted verbatim as the record's assessment,
whatever the score value is — in particular integers outside `[1,5]`. -/
theorem C4_amended_no_score_validation (fresh : Nat) (body resp : String) (cid tr j : Json)
    (hmsg : parse_message body = some (cid, tr))
    (hresp : json_loads (pyStrip resp) = some j) :
    politeness_from_topic fresh body resp =
      some { id := uuid fresh, call_id := cid, assessment := j, type := "politeness" } :=
  assessment_worker_success "politeness" fresh body resp cid tr j hmsg hresp

theorem C4_witness :
    parse_message "\x7b\"call_id\": \"call-4\", \"transcript\": \"hey\"\x7d" =
      some (Json.str "call-4", Json.str "hey") ∧
    json_loads (pyStrip "  \x7b\"politeness_score\": 0\x7d  ") =
      some (Json.obj [("politeness_score", Json.num 0)]) ∧
    politeness_from_topic 3 "\x7b\"call_id\": \"call-4\", \"transcript\": \"hey\"\x7d"
      "  \x7b\"politeness_score\": 0\x7d  " =
      some { id := uuid 3, call_id := Json.str "call-4",
             assessment := Json.obj [("politeness_score", Json.num 0)],
             type := "politeness" } :=
  ⟨rfl, rfl, C4_amended_no_score_validation 3
    "\x7b\"call_id\": \"call-4\", \"transcript\": \"hey\"\x7d"
    "  \x7b\"politeness_score\": 0\x7d  "
    (Json.str "call-4") (Json.str "hey") (Json.obj [("politeness_score", Json.num 0)])
    rfl rfl⟩

/-- Claim C7: every consumer validates that the delivered body decodes to
JSON with a truthy (non-empty) `call_id` and `transcript`; on any validation
failure — non-JSON body, non-object body, missing key, or a falsy value such
as the empty-string transcript of a zero-utterance session — the consumer
returns `none`, persisting nothing; the handlers are total, so nothing is
raised and the message is settled without retry or dead-lettering. -/
theorem C7_validation_failure_drops (body : String) (h : message_invalid body = true) :
    (∀ (fresh : Nat) (resp : String), politeness_from_topic fresh body resp = none) ∧
    (∀ (fresh : Nat) (resp : String), empathy_from_topic fresh body resp = none) ∧
    (∀ (fresh : Nat) (resp : String), professionalism_from_topic fresh body resp = none) ∧
    (∀ fresh : Nat, topic_to_cosmos fresh body = none) := by
  have hp := parse_message_none_of_invalid body h
  refine ⟨fun fresh resp => ?_, fun fresh resp => ?_, fun fresh resp => ?_, fun fresh => ?_⟩ <;>
    simp [politeness_from_topic, empathy_from_topic, professionalism_from_topic,
      assessment_worker, topic_to_cosmos, hp]

theorem C7_witness :
    message_invalid "\x7b\"call_id\": \"c-9\", \"transcript\": \"\"\x7d" = true ∧
    politeness_from_topic 0 "\x7b\"call_id\": \"c-9\", \"transcript\": \"\"\x7d"
      "\x7b\"politeness_score\": 5\x7d" = none ∧
    topic_to_cosmos 0 "\x7b\"call_id\": \"c-9\", \"transcript\": \"\"\x7d" = none := by
  have h := C7_validation_failure_drops
    "\x7b\"call_id\": \"c-9\", \"transcript\": \"\"\x7d" rfl
  exact ⟨rfl, h.1 0 "\x7b\"politeness_score\": 5\x7d", h.2.2.2 0⟩

/-- Claim C8: on a successful scorer response a worker persists
`{id, call_id, assessment, type}` with a freshly drawn id, the delivered
message's `call_id`, the parsed response as the assessment, and the worker's
dimension as the type; since the id is fresh per delivery, two deliveries of
the identical message produce two records that agree on `(call_id, type)` but
have distinct ids. -/
theorem C8_fresh_ids_duplicate_records (fresh1 fresh2 : Nat) (body resp : String)
    (cid tr j : Json)
    (hne : fresh1 ≠ fresh2)
    (hmsg : parse_message body = some (cid, tr))
    (hresp : json_loads (pyStrip resp) = some j) :
    politeness_from_topic fresh1 body resp =
      some { id := uuid fresh1, call_id := cid, assessment := j, type := "politeness" } ∧
    politeness_from_topic fresh2 body resp =
      some { id := uuid fresh2, call_id := cid, assessment := j, type := "politeness" } ∧
    uuid fresh1 ≠ uuid fresh2 := by
  refine ⟨assessment_worker_success "politeness" fresh1 body resp cid tr j hmsg hresp,
    assessment_worker_success "politeness" fresh2 body resp cid tr j hmsg hresp, ?_⟩
  intro hid
  exact hne (uuid_injective fresh1 fresh2 hid)

theorem C8_witness :
    politeness_from_topic 0 "\x7b\"call_id\": \"call-5\", \"transcript\": \"yo\"\x7d"
      "\x7b\"politeness_score\": 5, \"summary\": \"ok\", \"reasoning\": \"fine\"\x7d" =
      some { id := uuid 0, call_id := Json.str "call-5",
             assessment := Json.obj [("politeness_score", Json.num 5),
               ("summary", Json.str "ok"), ("reasoning", Json.str "fine")],
             type := "politeness" } ∧
    politeness_from_topic 1 "\x7b\"call_id\": \"call-5\", \"transcript\": \"yo\"\x7d"
      "\x7b\"politeness_score\": 5, \"summary\": \"ok\", \"reasoning\": \"fine\"\x7d" =
      some { id := uuid 1, call_id := Json.str "call-5",
             assessment := Json.obj [("politeness_score", Json.num 5),
               ("summary", Json.str "ok"), ("reasoning", Json.str "fine")],
             type := "politeness" } ∧
    uuid 0 ≠ uuid 1 :=
  C8_fresh_ids_duplicate_records 0 1
    "\x7b\"call_id\": \"call-5\", \"transcript\": \"yo\"\x7d"
    "\x7b\"politeness_score\": 5, \"summary\": \"ok\", \"reasoning\": \"fine\"\x7d"
    (Json.str "call-5") (Json.str "yo")
    (Json.obj [("politeness_score", Json.num 5), ("summary", Json.str "ok"),
      ("reasoning", Json.str "fine")])
    (by decide) rfl rfl

/-- Claim C10: the query endpoint is total over its store outcome; on success
it returns status 200 with a JSON array (an empty store yields the body
`"[]"`), each stored record projected to exactly the fields `id`, `call_id`
and `transcript`; on any read-side fault it returns status 500 with the fixed
generic body `"Error fetching transcripts."`, independent of the underlying
exception detail. -/
theorem C10_query_read_only_total :
    (∀ items : List TranscriptItem,
      (get_all_transcripts (Except.ok items)).status_code = 200) ∧
    get_all_transcripts (Except.ok []) =
      { status_code := 200, body := "[]", mimetype := some "application/json" } ∧
    (∀ r : TranscriptItem,
      jsonKeys (transcript_projection r) = ["id", "call_id", "transcript"]) ∧
    (∀ detail : String, get_all_transcripts (Except.error detail) =
      { status_code := 500, body := "Error fetching transcripts.", mimetype := none }) :=
  ⟨fun _ => rfl, rfl, fun _ => rfl, fun _ => rfl⟩
